import Mathlib

/-!
Verification of the Daphne interoperability test harness
(`monolithic_integration_test/src/daphne.rs`): a shallow embedding of the
configuration translation performed by `Daphne::new`, the image name/tag
memoization, the launch action ordering, and the liveness-pump /
shutdown-coordinator state machine, together with theorems settling the
specification's claims about them.

Machine integers are modelled as `Nat` (byte values are reduced `% 256`
where the source fills byte arrays); fallible code (panics, `assert_eq!`,
`unwrap`) is modelled with `Except`; the thread-local RNG is modelled as an
explicit byte stream `Nat → Nat`.
-/

namespace Daphne

/-- HPKE key-encapsulation algorithm identifiers (from `janus_core::message::HpkeKemId`;
that module is not part of the translated sources, so the variants are the two DAP
identifiers the spec's glossary implies: the supported X25519 one and another one). -/
inductive HpkeKemId where
  | P256HkdfSha256
  | X25519HkdfSha256
deriving DecidableEq, Repr

/-- HPKE key-derivation algorithm identifiers (from `janus_core::message::HpkeKdfId`). -/
inductive HpkeKdfId where
  | HkdfSha256
  | HkdfSha384
  | HkdfSha512
deriving DecidableEq, Repr

/-- HPKE AEAD algorithm identifiers (from `janus_core::message::HpkeAeadId`). -/
inductive HpkeAeadId where
  | Aes128Gcm
  | Aes256Gcm
  | ChaCha20Poly1305
deriving DecidableEq, Repr

/-- Protocol participant roles (from `janus_core::message::Role`). -/
inductive Role where
  | Collector
  | Client
  | Leader
  | Helper
deriving DecidableEq, Repr

/-- Modelled from the spec: `Role::as_str` of `janus_core` (not under the translated
sources); the lowercase role name passed as `DAP_AGGREGATOR_ROLE`. -/
def Role.as_str : Role → String
  | .Collector => "collector"
  | .Client => "client"
  | .Leader => "leader"
  | .Helper => "helper"

/-- Modelled from the spec: the index of each aggregator role into the task's pair of
aggregator endpoint URLs. `janus_core::message::Role::index` is not under the
translated sources; the test file `tests/janus.rs` shows index 0 is the Leader
endpoint and index 1 the Helper endpoint. -/
def Role.index : Role → Option Nat
  | .Leader => some 0
  | .Helper => some 1
  | _ => none

/-- A janus HPKE public configuration (from `janus_core::message::HpkeConfig`):
config id, algorithm triple, and public key bytes. -/
structure HpkeConfig where
  id : Nat
  kem_id : HpkeKemId
  kdf_id : HpkeKdfId
  aead_id : HpkeAeadId
  public_key : List Nat
deriving DecidableEq, Repr

/-- VDAF selectors of `janus_core::task::VdafInstance` (not under the translated
sources; the supported three variants appear in the `match` of
`daphne_vdaf_config_from_janus_vdaf`, and `Poplar1` stands for the other real
variants the spec's "any other selector" covers). -/
inductive CoreVdafInstance where
  | Prio3Aes128Count
  | Prio3Aes128Sum (bits : Nat)
  | Prio3Aes128Histogram (buckets : List Nat)
  | Poplar1 (bits : Nat)
deriving DecidableEq, Repr

/-- VDAF selectors of `janus_server::task::VdafInstance` (not under the translated
sources): a real VDAF or one of the test-only fake instances, all of which fall
into the wildcard arm of `daphne_vdaf_config_from_janus_vdaf`. -/
inductive VdafInstance where
  | Real (vdaf : CoreVdafInstance)
  | Fake
  | FakeFailsPrepInit
  | FakeFailsPrepStep
deriving DecidableEq, Repr

/-- Modelled from the spec: the Task data model ("role, a pair of aggregator endpoint
URLs, batch parameters, a VDAF selector, one or more HPKE keypairs keyed by id, one
or more rotation-ordered auth tokens ..."). `janus_server::task::Task` is not under
the translated sources; `hpke_keys` holds the values of the id-keyed map in
iteration order, each a public config paired with the private key bytes, and URLs
are modelled as strings. -/
structure Task where
  id : List Nat
  role : Role
  aggregator_endpoints : List String
  min_batch_duration : Nat
  min_batch_size : Nat
  vdaf : VdafInstance
  vdaf_verify_keys : List (List Nat)
  hpke_keys : List (HpkeConfig × List Nat)
  aggregator_auth_tokens : List String
  collector_auth_tokens : List String
  collector_hpke_config : HpkeConfig
deriving DecidableEq, Repr

/-- Modelled from the spec: `Task::aggregator_url` of `janus_server` (not under the
translated sources) looks up the endpoint URL for an aggregator role by its index
into the endpoint pair. -/
def Task.aggregator_url (task : Task) (role : Role) : Option String :=
  match role.index with
  | some i => task.aggregator_endpoints[i]?
  | none => none

/-- Modelled from the spec: "Select exactly one primary token from each
rotation-ordered token list"; the spec's worked example (tokens=["tok-a","tok-b"]
forwards "tok-a") fixes the primary aggregator token to the first of the list.
`janus_server::task::Task::primary_aggregator_auth_token` is not under the
translated sources. -/
def Task.primary_aggregator_auth_token (task : Task) : Option String :=
  task.aggregator_auth_tokens.head?

/-- Modelled from the spec: "for role = Leader it equals the first token in the
collector token list". `janus_server::task::Task::primary_collector_auth_token` is
not under the translated sources. -/
def Task.primary_collector_auth_token (task : Task) : Option String :=
  task.collector_auth_tokens.head?

/-! ### Hex encoding (model of the `hex` crate's lowercase `hex::encode`) -/

/-- The lowercase hex digit of a value below 16. -/
def hexDigit (n : Nat) : Char :=
  if n < 10 then Char.ofNat ('0'.toNat + n) else Char.ofNat ('a'.toNat + (n - 10))

/-- The hex character sequence of a byte list, two digits per byte,
high nibble first. -/
def hexChars : List Nat → List Char
  | [] => []
  | b :: bs => hexDigit (b / 16) :: hexDigit (b % 16) :: hexChars bs

/-- Model of `hex::encode` on a byte list. -/
def hexEncode (bs : List Nat) : String :=
  String.mk (hexChars bs)

/-! ### The RNG model -/

/-- Model of `thread_rng().fill` on a `[0u8; n]` buffer: `n` bytes drawn from the
byte stream `rng` starting at offset `off`, each reduced mod 256. -/
def fillBytes (rng : Nat → Nat) (off n : Nat) : List Nat :=
  (List.range n).map (fun i => rng (off + i) % 256)

/-! ### JSON rendering helpers (model of `serde_json` output, no whitespace) -/

/-- JSON string escaping for the quote and backslash characters. -/
def jsonEscapeChar (c : Char) : List Char :=
  if c = '"' ∨ c = '\\' then ['\\', c] else [c]

/-- A JSON string literal. -/
def jsonStr (s : String) : String :=
  "\"" ++ String.mk (s.data.flatMap jsonEscapeChar) ++ "\""

/-- A one-entry JSON object whose value is a raw (already rendered) JSON value,
as produced by `serde_json` for a single-entry map. -/
def jsonSingletonObjRaw (k v : String) : String :=
  "\x7b" ++ jsonStr k ++ ":" ++ v ++ "\x7d"

/-- A one-entry JSON object with a string value, as produced by the `json!` macro
for `{hex_id: token}`. -/
def jsonSingletonObj (k v : String) : String :=
  jsonSingletonObjRaw k (jsonStr v)

/-- The string `"{}"` (an empty JSON object), used to compare against what the
harness actually passes for a Helper's collector token list. -/
def emptyJsonObject : String := "\x7b\x7d"

/-! ### Errors

Every failure of `Daphne::new` is a panic (`assert_eq!`, `unwrap`, `expect`, or an
explicit `panic!`); the spec's error-handling table names the configuration ones
`UnsupportedHpkeAlgorithm` / `UnsupportedVdaf`. In the embedding each distinct
abort site is an `Except.error` constructor. -/
inductive DaphneError where
  /-- An HPKE algorithm triple outside the single supported combination; carries
  the offending identifiers (the `assert_eq!` panics in `DaphneHpkeConfig::from`). -/
  | UnsupportedHpkeAlgorithm (kem_id : HpkeKemId) (kdf_id : HpkeKdfId) (aead_id : HpkeAeadId)
  /-- A VDAF selector outside the supported subset; carries the offending selector
  (the wildcard `panic!` in `daphne_vdaf_config_from_janus_vdaf`). -/
  | UnsupportedVdaf (vdaf : VdafInstance)
  /-- `task.aggregator_url(Role::Leader).unwrap()` failed. -/
  | panicMissingLeaderUrl
  /-- `task.aggregator_url(Role::Helper).unwrap()` failed. -/
  | panicMissingHelperUrl
  /-- `task.vdaf_verify_keys().first().unwrap()` failed. -/
  | panicMissingVdafVerifyKey
  /-- `task.primary_aggregator_auth_token()` found no token. -/
  | panicMissingAggregatorAuthToken
  /-- `task.primary_collector_auth_token()` found no token. -/
  | panicMissingCollectorAuthToken
  /-- `task.aggregator_url(task.role).unwrap()` (line 160) failed. -/
  | panicMissingRoleEndpoint
  /-- The metadata `strategy` field was not a string. -/
  | panicMetadataStrategyNotString
  /-- The metadata `image_name` field was not a string. -/
  | panicMetadataImageNameNotString
  /-- The metadata `image_tag` field was not a string. -/
  | panicMetadataImageTagNotString
  /-- Strategy "skip": no Daphne test image available. -/
  | panicNoImageAvailable
  /-- An unknown image build strategy. -/
  | panicUnknownStrategy (strategy : String)
deriving DecidableEq, Repr

/-! ### The Daphne-side configuration types (`daphne.rs` lines 306-358) -/

/-- Mirror of the `DaphneHpkeConfig` struct: an id, the algorithm identifiers, and
the hex-encoded public key. -/
structure DaphneHpkeConfig where
  id : Nat
  kem_id : HpkeKemId
  kdf_id : HpkeKdfId
  aead_id : HpkeAeadId
  public_key : String
deriving DecidableEq, Repr

/-- Mirror of the `DaphneHpkeReceiverConfig` struct: a Daphne HPKE config together
with the hex-encoded secret key. -/
structure DaphneHpkeReceiverConfig where
  config : DaphneHpkeConfig
  secret_key : String
deriving DecidableEq, Repr

/-- Mirror of daphne's `Prio3Config` as used by the translated source. -/
inductive Prio3Config where
  | Count
  | Histogram (buckets : List Nat)
  | Sum (bits : Nat)
deriving DecidableEq, Repr

/-- Mirror of daphne's `VdafConfig` as used by the translated source. -/
inductive DaphneVdafConfig where
  | Prio3 (config : Prio3Config)
deriving DecidableEq, Repr

/-- Mirror of daphne's `DapGlobalConfig` as populated by `Daphne::new`. -/
structure DapGlobalConfig where
  max_batch_duration : Nat
  min_batch_interval_start : Nat
  max_batch_interval_end : Nat
deriving DecidableEq, Repr

/-- Mirror of the `DaphneDapTaskConfig` struct. -/
structure DaphneDapTaskConfig where
  version : String
  leader_url : String
  helper_url : String
  min_batch_duration : Nat
  min_batch_size : Nat
  vdaf : DaphneVdafConfig
  vdaf_verify_key : String
  collector_hpke_config : DaphneHpkeConfig
deriving DecidableEq, Repr

/-- Whether an HPKE config uses the single combination Daphne supports:
(X25519HkdfSha256, HkdfSha256, Aes128Gcm). -/
def supportedHpkeTriple (c : HpkeConfig) : Bool :=
  c.kem_id = HpkeKemId.X25519HkdfSha256 && c.kdf_id = HpkeKdfId.HkdfSha256 &&
    c.aead_id = HpkeAeadId.Aes128Gcm

/-- Embedding of `impl From<HpkeConfig> for DaphneHpkeConfig` (lines 327-343): the
three `assert_eq!` checks in source order, then the field-by-field conversion with
the public key hex-encoded. -/
def DaphneHpkeConfig.fromHpkeConfig (hpke_config : HpkeConfig) :
    Except DaphneError DaphneHpkeConfig :=
  if hpke_config.kem_id ≠ HpkeKemId.X25519HkdfSha256 then
    .error (.UnsupportedHpkeAlgorithm hpke_config.kem_id hpke_config.kdf_id
      hpke_config.aead_id)
  else if hpke_config.kdf_id ≠ HpkeKdfId.HkdfSha256 then
    .error (.UnsupportedHpkeAlgorithm hpke_config.kem_id hpke_config.kdf_id
      hpke_config.aead_id)
  else if hpke_config.aead_id ≠ HpkeAeadId.Aes128Gcm then
    .error (.UnsupportedHpkeAlgorithm hpke_config.kem_id hpke_config.kdf_id
      hpke_config.aead_id)
  else
    .ok { id := hpke_config.id, kem_id := hpke_config.kem_id,
          kdf_id := hpke_config.kdf_id, aead_id := hpke_config.aead_id,
          public_key := hexEncode hpke_config.public_key }

/-- The expected successful conversion of an HPKE config. -/
def daphneHpkeConfigOf (c : HpkeConfig) : DaphneHpkeConfig :=
  { id := c.id, kem_id := c.kem_id, kdf_id := c.kdf_id, aead_id := c.aead_id,
    public_key := hexEncode c.public_key }

/-- Embedding of the `dap_hpke_receiver_config_list` construction (lines 56-66):
convert each keypair of the task in order, hex-encoding the private key; the first
unsupported config aborts the whole construction. -/
def dapHpkeReceiverConfigList :
    List (HpkeConfig × List Nat) → Except DaphneError (List DaphneHpkeReceiverConfig)
  | [] => .ok []
  | (c, sk) :: rest =>
    match DaphneHpkeConfig.fromHpkeConfig c with
    | .error e => .error e
    | .ok dc =>
      match dapHpkeReceiverConfigList rest with
      | .error e => .error e
      | .ok l => .ok ({ config := dc, secret_key := hexEncode sk } :: l)

/-- Embedding of `daphne_vdaf_config_from_janus_vdaf` (lines 286-304): the three
supported selectors map to their Daphne descriptors; every other selector hits the
wildcard `panic!("Unsupported VdafInstance")`. -/
def daphne_vdaf_config_from_janus_vdaf : VdafInstance → Except DaphneError DaphneVdafConfig
  | .Real .Prio3Aes128Count => .ok (.Prio3 .Count)
  | .Real (.Prio3Aes128Histogram buckets) => .ok (.Prio3 (.Histogram buckets))
  | .Real (.Prio3Aes128Sum bits) => .ok (.Prio3 (.Sum bits))
  | vdaf => .error (.UnsupportedVdaf vdaf)

/-- Whether a VDAF selector is in the supported subset of the mapping. -/
def vdafSupported : VdafInstance → Bool
  | .Real .Prio3Aes128Count => true
  | .Real (.Prio3Aes128Histogram _) => true
  | .Real (.Prio3Aes128Sum _) => true
  | _ => false

/-- The configuration values `Daphne::new` computes from the task before launching
the container (the translation portion of lines 48-105). -/
structure TranslatedConfig where
  dap_global_config : DapGlobalConfig
  dap_hpke_receiver_config_list : List DaphneHpkeReceiverConfig
  dap_bucket_key : List Nat
  dap_collect_id_key : List Nat
  dap_task_list : List (String × DaphneDapTaskConfig)
  aggregator_bearer_token_list : String
  collector_bearer_token_list : String
deriving DecidableEq, Repr

/-- Embedding of the configuration-translation portion of `Daphne::new`
(lines 48-105), with every panic site an `Except.error` and the RNG an explicit
byte stream. The evaluation order follows the source: the HPKE receiver list
first, then the two random keys, then the task-list entry (leader URL, helper
URL, VDAF mapping, verify key, collector HPKE config, in struct-literal order),
then the aggregator and collector bearer-token lists. -/
def translate (task : Task) (rng : Nat → Nat) : Except DaphneError TranslatedConfig :=
  match dapHpkeReceiverConfigList task.hpke_keys with
  | .error e => .error e
  | .ok receiver_list =>
    let dap_bucket_key := fillBytes rng 0 16
    let dap_collect_id_key := fillBytes rng 16 16
    match task.aggregator_url Role.Leader with
    | none => .error .panicMissingLeaderUrl
    | some leader_url =>
      match task.aggregator_url Role.Helper with
      | none => .error .panicMissingHelperUrl
      | some helper_url =>
        match daphne_vdaf_config_from_janus_vdaf task.vdaf with
        | .error e => .error e
        | .ok vdaf =>
          match task.vdaf_verify_keys.head? with
          | none => .error .panicMissingVdafVerifyKey
          | some verify_key =>
            match DaphneHpkeConfig.fromHpkeConfig task.collector_hpke_config with
            | .error e => .error e
            | .ok collector_config =>
              match task.primary_aggregator_auth_token with
              | none => .error .panicMissingAggregatorAuthToken
              | some agg_token =>
                match (if task.role = Role.Leader then
                        match task.primary_collector_auth_token with
                        | none => Except.error DaphneError.panicMissingCollectorAuthToken
                        | some t =>
                          Except.ok (jsonSingletonObj (hexEncode task.id) t)
                       else
                        Except.ok "") with
                | .error e => .error e
                | .ok collector_list =>
                  .ok { dap_global_config :=
                          { max_batch_duration := 360000,
                            min_batch_interval_start := 259200,
                            max_batch_interval_end := 259200 },
                        dap_hpke_receiver_config_list := receiver_list,
                        dap_bucket_key := dap_bucket_key,
                        dap_collect_id_key := dap_collect_id_key,
                        dap_task_list :=
                          [(hexEncode task.id,
                            { version := "v01",
                              leader_url := leader_url,
                              helper_url := helper_url,
                              min_batch_duration := task.min_batch_duration,
                              min_batch_size := task.min_batch_size,
                              vdaf := vdaf,
                              vdaf_verify_key := hexEncode verify_key,
                              collector_hpke_config := collector_config })],
                        aggregator_bearer_token_list :=
                          jsonSingletonObj (hexEncode task.id) agg_token,
                        collector_bearer_token_list := collector_list }

/-! ### JSON rendering of the serialized binding values

`serde_json::to_string` output for the structures above, with struct fields in
declaration order, `snake_case` names, and no whitespace; C-like enums render as
their variant-name strings (plain serde derive). Only the shapes a claim inspects
matter; the renderers exist so the full container binding list can be stated. -/

/-- Render a `HpkeKemId` as serde does. -/
def renderHpkeKemId : HpkeKemId → String
  | .P256HkdfSha256 => "\"P256HkdfSha256\""
  | .X25519HkdfSha256 => "\"X25519HkdfSha256\""

/-- Render a `HpkeKdfId` as serde does. -/
def renderHpkeKdfId : HpkeKdfId → String
  | .HkdfSha256 => "\"HkdfSha256\""
  | .HkdfSha384 => "\"HkdfSha384\""
  | .HkdfSha512 => "\"HkdfSha512\""

/-- Render a `HpkeAeadId` as serde does. -/
def renderHpkeAeadId : HpkeAeadId → String
  | .Aes128Gcm => "\"Aes128Gcm\""
  | .Aes256Gcm => "\"Aes256Gcm\""
  | .ChaCha20Poly1305 => "\"ChaCha20Poly1305\""

/-- Render a `DaphneHpkeConfig` object. -/
def renderDaphneHpkeConfig (c : DaphneHpkeConfig) : String :=
  "\x7b\"id\":" ++ toString c.id ++ ",\"kem_id\":" ++ renderHpkeKemId c.kem_id ++
    ",\"kdf_id\":" ++ renderHpkeKdfId c.kdf_id ++ ",\"aead_id\":" ++
    renderHpkeAeadId c.aead_id ++ ",\"public_key\":" ++ jsonStr c.public_key ++ "\x7d"

/-- Render a `DaphneHpkeReceiverConfig` object. -/
def renderDaphneHpkeReceiverConfig (r : DaphneHpkeReceiverConfig) : String :=
  "\x7b\"config\":" ++ renderDaphneHpkeConfig r.config ++ ",\"secret_key\":" ++
    jsonStr r.secret_key ++ "\x7d"

/-- Render a JSON array from already-rendered elements. -/
def renderJsonArray (elems : List String) : String :=
  "[" ++ String.intercalate "," elems ++ "]"

/-- Render the HPKE receiver config list. -/
def renderReceiverConfigList (l : List DaphneHpkeReceiverConfig) : String :=
  renderJsonArray (l.map renderDaphneHpkeReceiverConfig)

/-- Render daphne's `VdafConfig` (externally tagged serde enums). -/
def renderDaphneVdafConfig : DaphneVdafConfig → String
  | .Prio3 .Count => "\x7b\"prio3\":\"count\"\x7d"
  | .Prio3 (.Histogram buckets) =>
    "\x7b\"prio3\":\x7b\"histogram\":\x7b\"buckets\":" ++
      renderJsonArray (buckets.map toString) ++ "\x7d\x7d\x7d"
  | .Prio3 (.Sum bits) =>
    "\x7b\"prio3\":\x7b\"sum\":\x7b\"bits\":" ++ toString bits ++ "\x7d\x7d\x7d"

/-- Render a `DaphneDapTaskConfig` object. -/
def renderDaphneDapTaskConfig (t : DaphneDapTaskConfig) : String :=
  "\x7b\"version\":" ++ jsonStr t.version ++ ",\"leader_url\":" ++
    jsonStr t.leader_url ++ ",\"helper_url\":" ++ jsonStr t.helper_url ++
    ",\"min_batch_duration\":" ++ toString t.min_batch_duration ++
    ",\"min_batch_size\":" ++ toString t.min_batch_size ++ ",\"vdaf\":" ++
    renderDaphneVdafConfig t.vdaf ++ ",\"vdaf_verify_key\":" ++
    jsonStr t.vdaf_verify_key ++ ",\"collector_hpke_config\":" ++
    renderDaphneHpkeConfig t.collector_hpke_config ++ "\x7d"

/-- Render the single-entry task list map. -/
def renderTaskList : List (String × DaphneDapTaskConfig) → String
  | [(k, t)] => jsonSingletonObjRaw k (renderDaphneDapTaskConfig t)
  | _ => "\x7b\x7d"

/-- Render the `DapGlobalConfig` object. -/
def renderDapGlobalConfig (g : DapGlobalConfig) : String :=
  "\x7b\"max_batch_duration\":" ++ toString g.max_batch_duration ++
    ",\"min_batch_interval_start\":" ++ toString g.min_batch_interval_start ++
    ",\"max_batch_interval_end\":" ++ toString g.max_batch_interval_end ++ "\x7d"

/-- Embedding of the `args` environment-binding list of `Daphne::new`
(lines 162-204): the eleven `KEY=VALUE` pairs in source order, with the random
keys hex-encoded at lines 189 and 193. -/
def daphneBindings (cfg : TranslatedConfig) (role : Role) : List (String × String) :=
  [("DAP_DEPLOYMENT", "prod"),
   ("DAP_ISSUE73_DISABLE_AGG_JOB_QUEUE_GARBAGE_COLLECTION", "true"),
   ("DAP_AGGREGATOR_ROLE", role.as_str),
   ("DAP_GLOBAL_CONFIG", renderDapGlobalConfig cfg.dap_global_config),
   ("DAP_HPKE_RECEIVER_CONFIG_LIST",
     renderReceiverConfigList cfg.dap_hpke_receiver_config_list),
   ("DAP_BUCKET_KEY", hexEncode cfg.dap_bucket_key),
   ("DAP_BUCKET_COUNT", "2"),
   ("DAP_COLLECT_ID_KEY", hexEncode cfg.dap_collect_id_key),
   ("DAP_TASK_LIST", renderTaskList cfg.dap_task_list),
   ("DAP_LEADER_BEARER_TOKEN_LIST", cfg.aggregator_bearer_token_list),
   ("DAP_COLLECTOR_BEARER_TOKEN_LIST", cfg.collector_bearer_token_list)]

/-! ### Image name/tag resolution (lines 23, 110-156) -/

/-- The bundled `test_daphne.metadata` JSON document, reduced to the fields the
resolver reads; a field is `none` when absent or not a string (`as_str`
returning `None`). -/
structure DaphneImageMetadata where
  strategy : Option String
  image_name : Option String
  image_tag : Option String
deriving DecidableEq, Repr

/-- Embedding of the metadata-driven strategy dispatch inside the cache-miss arm
(lines 113-153). `loadedImageTag` stands for the tag
`load_zstd_compressed_docker_image` derives when the "build" strategy loads the
bundled image archive. -/
def parseImageNameAndTag (metadata : DaphneImageMetadata) (loadedImageTag : String) :
    Except DaphneError (String × String) :=
  match metadata.strategy with
  | none => .error .panicMetadataStrategyNotString
  | some strategy =>
    if strategy = "build" then
      .ok ("sha256", loadedImageTag)
    else if strategy = "prebuilt" then
      match metadata.image_name with
      | none => .error .panicMetadataImageNameNotString
      | some n =>
        match metadata.image_tag with
        | none => .error .panicMetadataImageTagNotString
        | some t => .ok (n, t)
    else if strategy = "skip" then
      .error .panicNoImageAvailable
    else
      .error (.panicUnknownStrategy strategy)

/-- Embedding of the guarded single-slot cache logic (lines 110-156): with the
mutex held, a populated cache is returned as-is; an empty cache is populated from
the parsed metadata. Returns the resolved (name, tag) pair together with the cache
contents after the call. -/
def resolveImageNameAndTag (cache : Option (String × String))
    (metadata : DaphneImageMetadata) (loadedImageTag : String) :
    Except DaphneError ((String × String) × Option (String × String)) :=
  match cache with
  | some nt => .ok (nt, some nt)
  | none =>
    match parseImageNameAndTag metadata loadedImageTag with
    | .error e => .error e
    | .ok nt => .ok (nt, some nt)

/-! ### The launch sequence of `Daphne::new` as an action trace -/

/-- The externally visible (network / filesystem / container-engine) actions of
`Daphne::new`, in the order the source performs them. -/
inductive LaunchAction where
  /-- `load_zstd_compressed_docker_image` writing the bundled image to docker. -/
  | loadDockerImage
  /-- `pick_unused_port` (line 159). -/
  | pickUnusedPort
  /-- `container_client.run(runnable_image)` (line 219). -/
  | runContainer
  /-- `await_http_server(port).await` (line 222). -/
  | awaitHttpServer
  /-- `task::spawn` of the liveness pump (line 230). -/
  | spawnLivenessPump
deriving DecidableEq, Repr

/-- Embedding of `Daphne::new` as a whole: the configuration translation, then the
image resolution under the cache lock, then the role-endpoint lookup and launch.
The second component is the list of external actions performed; a failure earlier
in the sequence performs none of the later actions, and the translation performs
none at all. -/
def daphneNewTrace (task : Task) (rng : Nat → Nat) (cache : Option (String × String))
    (metadata : DaphneImageMetadata) (loadedImageTag : String) :
    Except DaphneError (TranslatedConfig × (String × String)) × List LaunchAction :=
  match translate task rng with
  | .error e => (.error e, [])
  | .ok cfg =>
    match resolveImageNameAndTag cache metadata loadedImageTag with
    | .error e => (.error e, [])
    | .ok (name_and_tag, _) =>
      let loadActions : List LaunchAction :=
        if cache = none ∧ metadata.strategy = some "build" then [.loadDockerImage]
        else []
      match task.aggregator_url task.role with
      | none => (.error .panicMissingRoleEndpoint, loadActions ++ [.pickUnusedPort])
      | some _ =>
        (.ok (cfg, name_and_tag),
         loadActions ++ [.pickUnusedPort, .runContainer, .awaitHttpServer,
                         .spawnLivenessPump])

/-! ### The liveness pump and shutdown coordinator (lines 228-262, 277-284)

The pump is the spawned `loop { select! { tick, shutdown }; request.await }`.
Time is measured in tick intervals (one unit = 250ms); a request lasting less
than a full interval has duration 0. The embedding keeps every behavior of the
source that matters for teardown:

* the maintenance request is awaited in the LOOP BODY, outside the `select!`
  (lines 252-259), so a request of duration `dur k` keeps the pump away from the
  next `select!` for that long — with no timeout, `dur` is an arbitrary stream;
* the tokio `interval` yields its first tick immediately and then schedules each
  next tick one period after the previous deadline (the default missed-tick
  "burst" behavior), so after a long request several overdue ticks are
  immediately ready in succession (`nextTick` increments by one per tick taken,
  even when it lags `now`);
* `select!` resolves with a ready branch — it waits until the earlier of the
  next tick deadline and the signal time when neither is ready — and chooses
  arbitrarily (modelling tokio's uniform choice) via the `choice` oracle when
  both are ready; the one-shot signal, sent by `Drop::drop` at time `s`, stays
  ready from `s` on;
* the shutdown branch sends the rendezvous completion and returns, so nothing
  follows it; `Drop::drop` blocks on `recv()` and returns exactly at the
  completion time, and the container is removed only afterwards (struct fields
  drop after the `Drop` body).

An execution is driven by a fuel bound; exhausting the fuel leaves the pump
running (the scheduler really can keep selecting overdue ticks over the pending
signal, so unconditional termination bounds are not available). -/

/-- The pump's loop state: the current time, the deadline of the next tick, the
number of requests issued, and the number of `select!`s resolved. -/
structure PumpState where
  now : Nat
  nextTick : Nat
  req : Nat
  sel : Nat
deriving DecidableEq, Repr

/-- The outcome of running the pump for a bounded number of iterations. -/
inductive PumpOutcome where
  /-- The shutdown branch was selected: completion sent at time `t`, task returned. -/
  | completed (t : Nat)
  /-- Fuel exhausted with the pump still looping. -/
  | running (st : PumpState)
deriving DecidableEq, Repr

/-- The initial pump state: time 0, first tick due immediately. -/
def pumpInit : PumpState := { now := 0, nextTick := 0, req := 0, sel := 0 }

/-- The time at which the pending `select!` resolves: immediately if the tick
deadline has passed or the signal (sent at `s`) is pending, otherwise at the
earlier of the tick deadline and the signal time. -/
def selectTime (s : Nat) (st : PumpState) : Nat :=
  if st.nextTick ≤ st.now ∨ s ≤ st.now then st.now else min st.nextTick s

/-- Whether this `select!` resolves with the shutdown branch: the signal must be
ready, and if an overdue tick is simultaneously ready the scheduler oracle
`choice` decides (tokio chooses uniformly among ready branches). -/
def shutdownChosen (s : Nat) (choice : Nat → Bool) (st : PumpState) : Bool :=
  decide (s ≤ selectTime s st) &&
    (!(decide (st.nextTick ≤ selectTime s st)) || choice st.sel)

/-- The state after a tick branch: the request issued at the select time is
awaited in the loop body for `dur st.req` units; the interval's next deadline
advances by one period from the previous deadline (burst behavior). -/
def tickStep (s : Nat) (dur : Nat → Nat) (st : PumpState) : PumpState :=
  { now := selectTime s st + dur st.req, nextTick := st.nextTick + 1,
    req := st.req + 1, sel := st.sel + 1 }

/-- Embedding of the pump loop (lines 240-261): run at most `fuel` iterations
with the signal sent at time `s`, request durations `dur`, and scheduler oracle
`choice`. Returns the list of issued maintenance requests as (issue time,
resolution time) pairs, and the outcome. -/
def pumpRun (s : Nat) (dur : Nat → Nat) (choice : Nat → Bool) :
    Nat → PumpState → List (Nat × Nat) × PumpOutcome
  | 0, st => ([], .running st)
  | fuel + 1, st =>
    if shutdownChosen s choice st = true then
      ([], .completed (selectTime s st))
    else
      ((selectTime s st, selectTime s st + dur st.req) ::
          (pumpRun s dur choice fuel (tickStep s dur st)).1,
       (pumpRun s dur choice fuel (tickStep s dur st)).2)

/-- Embedding of `Drop for Daphne` (lines 277-284): teardown sends the one-shot
cancellation signal at time `s` and blocks on the rendezvous `recv()`, returning
exactly at the pump's completion time — and not at all while the pump is still
looping. -/
def dropReturnTime (s : Nat) (dur : Nat → Nat) (choice : Nat → Bool)
    (fuel : Nat) : Option Nat :=
  match (pumpRun s dur choice fuel pumpInit).2 with
  | .completed t => some t
  | .running _ => none

/-! ### Concrete example values used by witnesses and counterexamples -/

/-- A constant RNG byte stream. -/
def rngZero : Nat → Nat := fun _ => 0

/-- The identity RNG byte stream (differs from `rngZero` on every block). -/
def rngNat : Nat → Nat := fun n => n

/-- An HPKE config using the single supported algorithm triple, id 7. -/
def supportedHpkeConfigEx : HpkeConfig :=
  { id := 7, kem_id := .X25519HkdfSha256, kdf_id := .HkdfSha256,
    aead_id := .Aes128Gcm, public_key := [1, 2, 3] }

/-- An HPKE config whose key-exchange algorithm is outside the supported triple. -/
def unsupportedHpkeConfigEx : HpkeConfig :=
  { id := 9, kem_id := .P256HkdfSha256, kdf_id := .HkdfSha256,
    aead_id := .Aes128Gcm, public_key := [4, 5] }

/-- A fully well-formed Leader task with one supported HPKE keypair and two
rotation-ordered tokens of each kind. -/
def exampleLeaderTask : Task :=
  { id := [1, 2],
    role := .Leader,
    aggregator_endpoints := ["http://leader.example.com/", "http://helper.example.com/"],
    min_batch_duration := 3600,
    min_batch_size := 100,
    vdaf := .Real .Prio3Aes128Count,
    vdaf_verify_keys := [[0, 1]],
    hpke_keys := [(supportedHpkeConfigEx, [10, 11])],
    aggregator_auth_tokens := ["tok-a", "tok-b"],
    collector_auth_tokens := ["ctok-a", "ctok-b"],
    collector_hpke_config := supportedHpkeConfigEx }

/-- The same task in the Helper role. -/
def exampleHelperTask : Task :=
  { exampleLeaderTask with role := .Helper }

/-- A task identical to `exampleLeaderTask` except for an unsupported VDAF selector. -/
def exampleBadVdafTask : Task :=
  { exampleLeaderTask with vdaf := .Fake }

/-- A task identical to `exampleLeaderTask` except that it supplies no aggregator
endpoint URLs. -/
def exampleNoEndpointTask : Task :=
  { exampleLeaderTask with aggregator_endpoints := [] }

/-- A task whose receiver keypairs are all supported but whose collector HPKE
config uses an unsupported algorithm. -/
def exampleBadCollectorTask : Task :=
  { exampleLeaderTask with collector_hpke_config := unsupportedHpkeConfigEx }

/-- A task carrying an HPKE keypair with an unsupported algorithm triple. -/
def exampleBadKeypairTask : Task :=
  { exampleLeaderTask with hpke_keys := [(unsupportedHpkeConfigEx, [8])] }

/-- A well-formed "prebuilt" metadata document. -/
def examplePrebuiltMetadata : DaphneImageMetadata :=
  { strategy := some "prebuilt", image_name := some "daphne-img",
    image_tag := some "tag-1" }

/-! ## Helper lemmas -/

theorem hexDigit_injOn : ∀ a, a < 16 → ∀ b, b < 16 → hexDigit a = hexDigit b → a = b := by
  decide

theorem hexChars_injOn : ∀ xs ys : List Nat, (∀ x ∈ xs, x < 256) → (∀ y ∈ ys, y < 256) →
    hexChars xs = hexChars ys → xs = ys := by
  intro xs
  induction xs with
  | nil =>
    intro ys _ _ h
    cases ys with
    | nil => rfl
    | cons b bs => simp [hexChars] at h
  | cons a as ih =>
    intro ys hxs hys h
    cases ys with
    | nil => simp [hexChars] at h
    | cons b bs =>
      simp only [hexChars, List.cons.injEq] at h
      obtain ⟨h1, h2, h3⟩ := h
      have ha : a < 256 := hxs a (List.mem_cons_self a as)
      have hb : b < 256 := hys b (List.mem_cons_self b bs)
      have hdiv : a / 16 = b / 16 :=
        hexDigit_injOn _ (Nat.div_lt_of_lt_mul ha) _ (Nat.div_lt_of_lt_mul hb) h1
      have hmod : a % 16 = b % 16 :=
        hexDigit_injOn _ (Nat.mod_lt a (by omega)) _ (Nat.mod_lt b (by omega)) h2
      have hab : a = b := by omega
      have : as = bs :=
        ih bs (fun x hx => hxs x (List.mem_cons_of_mem _ hx))
          (fun y hy => hys y (List.mem_cons_of_mem _ hy)) h3
      rw [hab, this]

theorem hexEncode_injOn (xs ys : List Nat) (hxs : ∀ x ∈ xs, x < 256)
    (hys : ∀ y ∈ ys, y < 256) (h : hexEncode xs = hexEncode ys) : xs = ys := by
  have h' : (hexEncode xs).data = (hexEncode ys).data := by rw [h]
  simp only [hexEncode] at h'
  exact hexChars_injOn xs ys hxs hys h'

theorem hexChars_length (bs : List Nat) : (hexChars bs).length = 2 * bs.length := by
  induction bs with
  | nil => rfl
  | cons b rest ih => simp [hexChars, ih]; omega

theorem hexEncode_length (bs : List Nat) : (hexEncode bs).length = 2 * bs.length := by
  simp [hexEncode, String.length, hexChars_length]

theorem fillBytes_length (rng : Nat → Nat) (off n : Nat) :
    (fillBytes rng off n).length = n := by
  simp [fillBytes]

theorem fillBytes_lt (rng : Nat → Nat) (off n : Nat) :
    ∀ b ∈ fillBytes rng off n, b < 256 := by
  intro b hb
  simp only [fillBytes, List.mem_map] at hb
  obtain ⟨i, _, rfl⟩ := hb
  exact Nat.mod_lt _ (by omega)

theorem fromHpkeConfig_ok (c : HpkeConfig) (h : supportedHpkeTriple c = true) :
    DaphneHpkeConfig.fromHpkeConfig c = .ok (daphneHpkeConfigOf c) := by
  simp only [supportedHpkeTriple, Bool.and_eq_true, decide_eq_true_eq] at h
  obtain ⟨⟨h1, h2⟩, h3⟩ := h
  simp [DaphneHpkeConfig.fromHpkeConfig, h1, h2, h3, daphneHpkeConfigOf]

theorem fromHpkeConfig_err (c : HpkeConfig) (h : supportedHpkeTriple c = false) :
    DaphneHpkeConfig.fromHpkeConfig c =
      .error (.UnsupportedHpkeAlgorithm c.kem_id c.kdf_id c.aead_id) := by
  unfold DaphneHpkeConfig.fromHpkeConfig
  split_ifs with h1 h2 h3
  · rfl
  · rfl
  · rfl
  · rw [not_not] at h1 h2 h3
    simp [supportedHpkeTriple, h1, h2, h3] at h

theorem dapHpkeReceiverConfigList_ok (keys : List (HpkeConfig × List Nat))
    (h : ∀ p ∈ keys, supportedHpkeTriple p.1 = true) :
    dapHpkeReceiverConfigList keys =
      .ok (keys.map fun p =>
        { config := daphneHpkeConfigOf p.1, secret_key := hexEncode p.2 }) := by
  induction keys with
  | nil => rfl
  | cons p rest ih =>
    obtain ⟨c, sk⟩ := p
    have hc := h (c, sk) (List.mem_cons_self _ _)
    have hrest := ih fun q hq => h q (List.mem_cons_of_mem _ hq)
    simp [dapHpkeReceiverConfigList, fromHpkeConfig_ok c hc, hrest, daphneHpkeConfigOf]

theorem dapHpkeReceiverConfigList_err (keys : List (HpkeConfig × List Nat))
    (h : ∃ p ∈ keys, supportedHpkeTriple p.1 = false) :
    ∃ c sk, (c, sk) ∈ keys ∧ supportedHpkeTriple c = false ∧
      dapHpkeReceiverConfigList keys =
        .error (.UnsupportedHpkeAlgorithm c.kem_id c.kdf_id c.aead_id) := by
  induction keys with
  | nil => simp at h
  | cons p rest ih =>
    obtain ⟨c, sk⟩ := p
    by_cases hc : supportedHpkeTriple c = true
    · have hrest : ∃ q ∈ rest, supportedHpkeTriple q.1 = false := by
        obtain ⟨q, hq, hqf⟩ := h
        rcases List.mem_cons.mp hq with rfl | hmem
        · simp only at hqf
          rw [hc] at hqf
          exact absurd hqf (by simp)
        · exact ⟨q, hmem, hqf⟩
      obtain ⟨c', sk', hmem, hf, heq⟩ := ih hrest
      exact ⟨c', sk', List.mem_cons_of_mem _ hmem, hf,
        by simp [dapHpkeReceiverConfigList, fromHpkeConfig_ok c hc, heq]⟩
    · have hc' : supportedHpkeTriple c = false := by
        simpa using hc
      exact ⟨c, sk, List.mem_cons_self _ _, hc',
        by simp [dapHpkeReceiverConfigList, fromHpkeConfig_err c hc']⟩

theorem vdaf_config_ok (v : VdafInstance) (h : vdafSupported v = true) :
    ∃ d, daphne_vdaf_config_from_janus_vdaf v = .ok d := by
  cases v with
  | Real cv => cases cv <;> simp [vdafSupported, daphne_vdaf_config_from_janus_vdaf] at h ⊢
  | Fake => simp [vdafSupported] at h
  | FakeFailsPrepInit => simp [vdafSupported] at h
  | FakeFailsPrepStep => simp [vdafSupported] at h

theorem head?_of_ne_nil {α : Type} {l : List α} (h : l ≠ []) : ∃ a, l.head? = some a := by
  cases l with
  | nil => exact absurd rfl h
  | cons a as => exact ⟨a, rfl⟩

theorem aggregator_url_leader (task : Task) (h : 2 ≤ task.aggregator_endpoints.length) :
    ∃ u, task.aggregator_url Role.Leader = some u := by
  simp only [Task.aggregator_url, Role.index]
  exact ⟨_, List.getElem?_eq_getElem (by omega)⟩

theorem aggregator_url_helper (task : Task) (h : 2 ≤ task.aggregator_endpoints.length) :
    ∃ u, task.aggregator_url Role.Helper = some u := by
  simp only [Task.aggregator_url, Role.index]
  exact ⟨_, List.getElem?_eq_getElem (by omega)⟩

/-- Forward characterization of a successful translation: a task meeting all the
implicit preconditions of `Daphne::new` translates successfully, and the
interesting fields of the result are as constructed by the source. -/
theorem translate_eq_ok (task : Task) (rng : Nat → Nat)
    (hkeys : ∀ p ∈ task.hpke_keys, supportedHpkeTriple p.1 = true)
    (hlen : 2 ≤ task.aggregator_endpoints.length)
    (hvdaf : vdafSupported task.vdaf = true)
    (hvk : task.vdaf_verify_keys ≠ [])
    (hcol : supportedHpkeTriple task.collector_hpke_config = true)
    (hat : task.aggregator_auth_tokens ≠ [])
    (hct : task.role = Role.Leader → task.collector_auth_tokens ≠ []) :
    ∃ cfg, translate task rng = .ok cfg ∧
      cfg.dap_hpke_receiver_config_list =
        task.hpke_keys.map (fun p =>
          { config := daphneHpkeConfigOf p.1, secret_key := hexEncode p.2 }) ∧
      cfg.dap_bucket_key = fillBytes rng 0 16 ∧
      cfg.dap_collect_id_key = fillBytes rng 16 16 := by
  have hrl := dapHpkeReceiverConfigList_ok task.hpke_keys hkeys
  obtain ⟨lu, hurlL⟩ := aggregator_url_leader task hlen
  obtain ⟨hu, hurlH⟩ := aggregator_url_helper task hlen
  obtain ⟨d, hd⟩ := vdaf_config_ok task.vdaf hvdaf
  obtain ⟨vk, hvkh⟩ : ∃ k, task.vdaf_verify_keys.head? = some k := head?_of_ne_nil hvk
  have hcolc := fromHpkeConfig_ok task.collector_hpke_config hcol
  obtain ⟨at0, hat0⟩ : ∃ t, task.primary_aggregator_auth_token = some t := by
    simpa [Task.primary_aggregator_auth_token] using head?_of_ne_nil hat
  by_cases hrole : task.role = Role.Leader
  · obtain ⟨ct0, hct0⟩ : ∃ t, task.primary_collector_auth_token = some t := by
      simpa [Task.primary_collector_auth_token] using head?_of_ne_nil (hct hrole)
    simp only [translate, hrl, hurlL, hurlH, hd, hvkh, hcolc, hat0, hrole, hct0,
      if_pos rfl]
    exact ⟨_, rfl, rfl, rfl, rfl⟩
  · simp only [translate, hrl, hurlL, hurlH, hd, hvkh, hcolc, hat0, if_neg hrole]
    exact ⟨_, rfl, rfl, rfl, rfl⟩

/-- Inversion of a successful translation: the random keys, the aggregator
bearer-token list, and the collector bearer-token list of any produced
configuration are exactly as the source constructs them. -/
theorem translate_ok_fields (task : Task) (rng : Nat → Nat) (cfg : TranslatedConfig)
    (h : translate task rng = .ok cfg) :
    cfg.dap_bucket_key = fillBytes rng 0 16 ∧
    cfg.dap_collect_id_key = fillBytes rng 16 16 ∧
    (∃ t, task.primary_aggregator_auth_token = some t ∧
      cfg.aggregator_bearer_token_list = jsonSingletonObj (hexEncode task.id) t) ∧
    (task.role = Role.Leader →
      ∃ t, task.primary_collector_auth_token = some t ∧
        cfg.collector_bearer_token_list = jsonSingletonObj (hexEncode task.id) t) ∧
    (task.role ≠ Role.Leader → cfg.collector_bearer_token_list = "") := by
  unfold translate at h
  rcases h1 : dapHpkeReceiverConfigList task.hpke_keys with e | rl
  · simp only [h1] at h
    exact Except.noConfusion h
  simp only [h1] at h
  rcases h2 : task.aggregator_url Role.Leader with _ | lu
  · simp only [h2] at h
    exact Except.noConfusion h
  simp only [h2] at h
  rcases h3 : task.aggregator_url Role.Helper with _ | hu
  · simp only [h3] at h
    exact Except.noConfusion h
  simp only [h3] at h
  rcases h4 : daphne_vdaf_config_from_janus_vdaf task.vdaf with e | d
  · simp only [h4] at h
    exact Except.noConfusion h
  simp only [h4] at h
  rcases h5 : task.vdaf_verify_keys.head? with _ | vk
  · simp only [h5] at h
    exact Except.noConfusion h
  simp only [h5] at h
  rcases h6 : DaphneHpkeConfig.fromHpkeConfig task.collector_hpke_config with e | cc
  · simp only [h6] at h
    exact Except.noConfusion h
  simp only [h6] at h
  rcases h7 : task.primary_aggregator_auth_token with _ | at0
  · simp only [h7] at h
    exact Except.noConfusion h
  simp only [h7] at h
  by_cases hrole : task.role = Role.Leader
  · rcases h8 : task.primary_collector_auth_token with _ | ct0
    · simp only [hrole, if_pos rfl, h8] at h
      exact Except.noConfusion h
    simp only [hrole, if_pos rfl, h8] at h
    injection h with h
    subst h
    exact ⟨rfl, rfl, ⟨at0, rfl, rfl⟩,
      fun _ => ⟨ct0, rfl, rfl⟩, fun hne => absurd hrole hne⟩
  · simp only [if_neg hrole] at h
    injection h with h
    subst h
    exact ⟨rfl, rfl, ⟨at0, rfl, rfl⟩,
      fun hL => absurd hL hrole, fun _ => rfl⟩

theorem selectTime_ge (s : Nat) (st : PumpState) : st.now ≤ selectTime s st := by
  unfold selectTime
  split
  · exact Nat.le_refl _
  · rename_i hcond
    push_neg at hcond
    omega

theorem selectTime_le (s : Nat) (st : PumpState) (h : st.now ≤ s) :
    selectTime s st ≤ s := by
  unfold selectTime
  split
  · exact h
  · omega

theorem shutdownChosen_le (s : Nat) (choice : Nat → Bool) (st : PumpState)
    (h : shutdownChosen s choice st = true) : s ≤ selectTime s st := by
  simp only [shutdownChosen, Bool.and_eq_true, decide_eq_true_eq] at h
  exact h.1

/-- Core safety invariant of completed pump runs: the completion time is at least
the current time and at least the signal time, and every issued request is issued
no earlier than the current time, resolves no earlier than it is issued, and
resolves no later than the completion. -/
theorem pumpRun_completed_bounds (s : Nat) (dur : Nat → Nat) (choice : Nat → Bool) :
    ∀ (fuel : Nat) (st : PumpState) (reqs : List (Nat × Nat)) (t : Nat),
      pumpRun s dur choice fuel st = (reqs, .completed t) →
      st.now ≤ t ∧ s ≤ t ∧ ∀ p ∈ reqs, st.now ≤ p.1 ∧ p.1 ≤ p.2 ∧ p.2 ≤ t := by
  intro fuel
  induction fuel with
  | zero =>
    intro st reqs t h
    simp only [pumpRun, Prod.mk.injEq] at h
    exact absurd h.2 (by simp)
  | succ fuel ih =>
    intro st reqs t h
    simp only [pumpRun] at h
    split at h
    · rename_i hsd
      simp only [Prod.mk.injEq] at h
      obtain ⟨hreqs, hout⟩ := h
      have ht : selectTime s st = t := by injection hout
      subst hreqs
      refine ⟨?_, ?_, by simp⟩
      · rw [← ht]
        exact selectTime_ge s st
      · rw [← ht]
        exact shutdownChosen_le s choice st hsd
    · rcases hrest : pumpRun s dur choice fuel (tickStep s dur st) with ⟨reqs', out'⟩
      simp only [hrest, Prod.mk.injEq] at h
      obtain ⟨hreqs, hout⟩ := h
      obtain ⟨h1, h2, h3⟩ := ih (tickStep s dur st) reqs' t (by rw [hrest, hout])
      have hstnow : (tickStep s dur st).now = selectTime s st + dur st.req := rfl
      rw [hstnow] at h1
      have hge := selectTime_ge s st
      refine ⟨by omega, h2, ?_⟩
      intro p hp
      subst hreqs
      rcases List.mem_cons.mp hp with rfl | hp'
      · exact ⟨hge, by omega, by omega⟩
      · obtain ⟨g1, g2, g3⟩ := h3 p hp'
        rw [hstnow] at g1
        exact ⟨by omega, g2, g3⟩

/-- When no request outlasts a tick interval (duration 0 in whole intervals), the
current time never passes the signal time, so any completion happens by `s`. -/
theorem pumpRun_zero_dur (s : Nat) (dur : Nat → Nat) (choice : Nat → Bool)
    (hdur : ∀ k, dur k = 0) :
    ∀ (fuel : Nat) (st : PumpState), st.now ≤ s →
      ∀ (reqs : List (Nat × Nat)) (t : Nat),
        pumpRun s dur choice fuel st = (reqs, .completed t) → t ≤ s := by
  intro fuel
  induction fuel with
  | zero =>
    intro st hst reqs t h
    simp only [pumpRun, Prod.mk.injEq] at h
    exact absurd h.2 (by simp)
  | succ fuel ih =>
    intro st hst reqs t h
    simp only [pumpRun] at h
    split at h
    · simp only [Prod.mk.injEq] at h
      have ht : selectTime s st = t := by injection h.2
      rw [← ht]
      exact selectTime_le s st hst
    · rcases hrest : pumpRun s dur choice fuel (tickStep s dur st) with ⟨reqs', out'⟩
      simp only [hrest, Prod.mk.injEq] at h
      refine ih (tickStep s dur st) ?_ reqs' t (by rw [hrest, h.2])
      show selectTime s st + dur st.req ≤ s
      rw [hdur st.req]
      simpa using selectTime_le s st hst

/-! ## The claims -/

/-- C1 counterexample: with the signal sent at time 0, each maintenance request
lasting two tick intervals, and the scheduler resolving the first two selects in
favor of the (simultaneously ready) overdue tick, the pump issues a request
strictly after the signal and `Drop` only returns at time 2 intervals after the
first request resolves — time 4, far beyond one tick interval (250ms) after the
cancellation request — refuting the claimed unconditional termination bound. -/
theorem pump_not_within_one_interval :
    dropReturnTime 0 (fun _ => 2) (fun sel => decide (2 ≤ sel)) 4 = some 4 ∧
    (pumpRun 0 (fun _ => 2) (fun sel => decide (2 ≤ sel)) 4 pumpInit).1 =
      [(0, 2), (2, 4)] ∧
    ¬(4 ≤ 0 + 1) := by
  decide

/-- C1 (amended): teardown (`Drop for Daphne`) sends the one-shot cancellation
signal at time `s` and blocks on the rendezvous channel until the pump reports
completion, so whenever `drop` has returned (at time `t`), the pump has
terminated: completion happens at or after the signal, every maintenance request
was issued and had resolved no later than `t`, and hence none runs concurrently
with, or after, container removal (which follows the `Drop` body). The pump is
NOT guaranteed to terminate within one tick interval (250ms) of the cancellation:
the request is awaited in the loop body and overdue ticks burst, but when no
request outlasts a tick interval the one-interval bound does hold. -/
theorem drop_stops_pump (s : Nat) (dur : Nat → Nat) (choice : Nat → Bool)
    (fuel : Nat) (t : Nat) (h : dropReturnTime s dur choice fuel = some t) :
    s ≤ t ∧
    (∀ p ∈ (pumpRun s dur choice fuel pumpInit).1, p.1 ≤ t ∧ p.2 ≤ t) ∧
    ((∀ k, dur k = 0) → t ≤ s + 1) := by
  unfold dropReturnTime at h
  rcases hrun : pumpRun s dur choice fuel pumpInit with ⟨reqs, out⟩
  rw [hrun] at h
  cases out with
  | running st => exact Option.noConfusion h
  | completed t' =>
    have ht : t' = t := by injection h
    subst ht
    obtain ⟨-, h2, h3⟩ := pumpRun_completed_bounds s dur choice fuel pumpInit reqs t' hrun
    refine ⟨h2, ?_, fun hdur => ?_⟩
    · intro p hp
      obtain ⟨-, g2, g3⟩ := h3 p hp
      exact ⟨by omega, g3⟩
    · have := pumpRun_zero_dur s dur choice hdur fuel pumpInit (by simp [pumpInit])
        reqs t' hrun
      omega

/-- Witness for C1 at a concrete run: signal at time 1, zero-duration requests,
scheduler favoring shutdown; the pump issues one request at time 0 and completes
at time 1. -/
theorem drop_stops_pump_witness :
    1 ≤ 1 ∧
    (∀ p ∈ (pumpRun 1 (fun _ => 0) (fun _ => true) 3 pumpInit).1,
      p.1 ≤ 1 ∧ p.2 ≤ 1) ∧
    ((∀ k : Nat, (fun _ : Nat => (0 : Nat)) k = 0) → 1 ≤ 1 + 1) :=
  drop_stops_pump 1 (fun _ => 0) (fun _ => true) 3 1 (by decide)

/-- C2 counterexample: for a Helper task the translated collector bearer-token
value is the empty string, which is not an empty JSON object as the claim
states (the source's `else` branch is `String::new()`, not `json!({})`). -/
theorem helper_collector_token_not_json_object :
    ∃ cfg, translate exampleHelperTask rngZero = Except.ok cfg ∧
      cfg.collector_bearer_token_list = "" ∧
      cfg.collector_bearer_token_list ≠ emptyJsonObject := by
  obtain ⟨cfg, hok, -, -, -⟩ :=
    translate_eq_ok exampleHelperTask rngZero (by decide) (by decide) (by decide)
      (by decide) (by decide) (by decide) (fun _ => by decide)
  obtain ⟨-, -, -, -, hh⟩ := translate_ok_fields exampleHelperTask rngZero cfg hok
  have he : cfg.collector_bearer_token_list = "" := hh (by decide)
  exact ⟨cfg, hok, he, by rw [he]; decide⟩

/-- C2 (amended): for every Task whose role is Helper and for which translation
succeeds, the translated collector bearer-token binding is the explicit empty
string (not an empty JSON object); for every Task whose role is Leader, it is the
JSON object mapping the hex-encoded task id to the first token of the
rotation-ordered collector token list. -/
theorem collector_token_list_spec (task : Task) (rng : Nat → Nat)
    (cfg : TranslatedConfig) (h : translate task rng = .ok cfg) :
    (task.role = Role.Helper → cfg.collector_bearer_token_list = "") ∧
    (task.role = Role.Leader →
      ∃ t, task.collector_auth_tokens.head? = some t ∧
        cfg.collector_bearer_token_list = jsonSingletonObj (hexEncode task.id) t) ∧
    ("DAP_COLLECTOR_BEARER_TOKEN_LIST", cfg.collector_bearer_token_list) ∈
      daphneBindings cfg task.role := by
  obtain ⟨-, -, -, hL, hH⟩ := translate_ok_fields task rng cfg h
  refine ⟨fun hh => hH (by simp [hh]), fun hl => ?_, by simp [daphneBindings]⟩
  obtain ⟨t, ht, he⟩ := hL hl
  exact ⟨t, by simpa [Task.primary_collector_auth_token] using ht, he⟩

/-- Witness for C2: the Helper task yields the empty string, and the Leader task
yields the single-entry JSON object for the first collector token. -/
theorem collector_token_list_spec_witness :
    ∃ cfg cfg2, translate exampleHelperTask rngZero = Except.ok cfg ∧
      cfg.collector_bearer_token_list = "" ∧
      translate exampleLeaderTask rngZero = Except.ok cfg2 ∧
      cfg2.collector_bearer_token_list =
        jsonSingletonObj (hexEncode exampleLeaderTask.id) "ctok-a" := by
  obtain ⟨cfg, hok, -, -, -⟩ :=
    translate_eq_ok exampleHelperTask rngZero (by decide) (by decide) (by decide)
      (by decide) (by decide) (by decide) (fun _ => by decide)
  obtain ⟨cfg2, hok2, -, -, -⟩ :=
    translate_eq_ok exampleLeaderTask rngZero (by decide) (by decide) (by decide)
      (by decide) (by decide) (by decide) (fun _ => by decide)
  have h1 := (collector_token_list_spec exampleHelperTask rngZero cfg hok).1 (by decide)
  obtain ⟨t, ht, he⟩ :=
    (collector_token_list_spec exampleLeaderTask rngZero cfg2 hok2).2.1 (by decide)
  have ht' : t = "ctok-a" := by
    simpa [exampleLeaderTask] using ht.symm
  exact ⟨cfg, cfg2, hok, h1, hok2, by rw [he, ht']⟩

/-- C3: for every Task containing an HPKE keypair whose algorithm triple differs
from the single supported combination, `Daphne::new` fails with
`UnsupportedHpkeAlgorithm` carrying the identifiers of an offending keypair of the
task, and performs no network or filesystem action. -/
theorem unsupported_hpke_fails_before_actions (task : Task)
    (h : ∃ p ∈ task.hpke_keys, supportedHpkeTriple p.1 = false) :
    ∃ c sk, (c, sk) ∈ task.hpke_keys ∧ supportedHpkeTriple c = false ∧
      ∀ (rng : Nat → Nat) (cache : Option (String × String))
        (metadata : DaphneImageMetadata) (loadedImageTag : String),
        daphneNewTrace task rng cache metadata loadedImageTag =
          (.error (.UnsupportedHpkeAlgorithm c.kem_id c.kdf_id c.aead_id), []) := by
  obtain ⟨c, sk, hmem, hf, heq⟩ := dapHpkeReceiverConfigList_err task.hpke_keys h
  refine ⟨c, sk, hmem, hf, fun rng cache metadata tag => ?_⟩
  have htr : translate task rng =
      .error (.UnsupportedHpkeAlgorithm c.kem_id c.kdf_id c.aead_id) := by
    simp only [translate, heq]
  simp [daphneNewTrace, htr]

/-- Witness for C3: the task with the P-256 keypair fails with the offending
identifiers and an empty action trace. -/
theorem unsupported_hpke_fails_before_actions_witness :
    daphneNewTrace exampleBadKeypairTask rngZero none examplePrebuiltMetadata "t" =
      (.error (.UnsupportedHpkeAlgorithm HpkeKemId.P256HkdfSha256
        HpkeKdfId.HkdfSha256 HpkeAeadId.Aes128Gcm), []) := by
  obtain ⟨c, sk, hmem, -, hall⟩ :=
    unsupported_hpke_fails_before_actions exampleBadKeypairTask (by decide)
  have hc : c = unsupportedHpkeConfigEx := by
    have h1 : (c, sk) = (unsupportedHpkeConfigEx, [8]) := by
      simpa [exampleBadKeypairTask] using hmem
    exact (Prod.mk.injEq _ _ _ _ ▸ h1).1
  have := hall rngZero none examplePrebuiltMetadata "t"
  rw [hc] at this
  exact this

/-- C4: the VDAF selector mapping covers exactly the supported subset — count maps
to Daphne's count descriptor, histogram (with buckets) to the histogram
descriptor, sum (with bits) to the sum descriptor — and every other selector fails
with `UnsupportedVdaf` rather than falling through silently. -/
theorem vdaf_mapping_total :
    daphne_vdaf_config_from_janus_vdaf (.Real .Prio3Aes128Count) =
      .ok (.Prio3 .Count) ∧
    (∀ buckets, daphne_vdaf_config_from_janus_vdaf
      (.Real (.Prio3Aes128Histogram buckets)) = .ok (.Prio3 (.Histogram buckets))) ∧
    (∀ bits, daphne_vdaf_config_from_janus_vdaf (.Real (.Prio3Aes128Sum bits)) =
      .ok (.Prio3 (.Sum bits))) ∧
    (∀ v : VdafInstance, vdafSupported v = false →
      daphne_vdaf_config_from_janus_vdaf v = .error (.UnsupportedVdaf v)) := by
  refine ⟨rfl, fun _ => rfl, fun _ => rfl, fun v hv => ?_⟩
  cases v with
  | Real cv =>
    cases cv <;> simp_all [vdafSupported, daphne_vdaf_config_from_janus_vdaf]
  | Fake => rfl
  | FakeFailsPrepInit => rfl
  | FakeFailsPrepStep => rfl

/-- Witness for C4 at concrete selectors: the three supported descriptors and one
unsupported selector. -/
theorem vdaf_mapping_total_witness :
    daphne_vdaf_config_from_janus_vdaf (.Real .Prio3Aes128Count) =
      .ok (.Prio3 .Count) ∧
    daphne_vdaf_config_from_janus_vdaf (.Real (.Prio3Aes128Histogram [1, 2])) =
      .ok (.Prio3 (.Histogram [1, 2])) ∧
    daphne_vdaf_config_from_janus_vdaf (.Real (.Prio3Aes128Sum 8)) =
      .ok (.Prio3 (.Sum 8)) ∧
    daphne_vdaf_config_from_janus_vdaf .Fake =
      .error (.UnsupportedVdaf .Fake) :=
  ⟨vdaf_mapping_total.1, vdaf_mapping_total.2.1 [1, 2], vdaf_mapping_total.2.2.1 8,
    vdaf_mapping_total.2.2.2 .Fake (by decide)⟩

/-- C5: every launch draws the bucket-routing key and the collection-id key as 16
bytes from the RNG stream, passes each to the container hex-encoded as exactly 32
hex characters in the `DAP_BUCKET_KEY` / `DAP_COLLECT_ID_KEY` bindings, and two
successive translations whose RNG draws differ produce different hex-encoded
keys (hex encoding is injective on byte lists). -/
theorem random_keys_hex (task : Task) (rng rng2 : Nat → Nat)
    (cfg cfg2 : TranslatedConfig)
    (h : translate task rng = .ok cfg) (h2 : translate task rng2 = .ok cfg2) :
    cfg.dap_bucket_key = fillBytes rng 0 16 ∧
    cfg.dap_collect_id_key = fillBytes rng 16 16 ∧
    cfg.dap_bucket_key.length = 16 ∧
    cfg.dap_collect_id_key.length = 16 ∧
    (hexEncode cfg.dap_bucket_key).length = 32 ∧
    (hexEncode cfg.dap_collect_id_key).length = 32 ∧
    ("DAP_BUCKET_KEY", hexEncode cfg.dap_bucket_key) ∈ daphneBindings cfg task.role ∧
    ("DAP_COLLECT_ID_KEY", hexEncode cfg.dap_collect_id_key) ∈
      daphneBindings cfg task.role ∧
    (fillBytes rng 0 16 ≠ fillBytes rng2 0 16 →
      hexEncode cfg.dap_bucket_key ≠ hexEncode cfg2.dap_bucket_key) ∧
    (fillBytes rng 16 16 ≠ fillBytes rng2 16 16 →
      hexEncode cfg.dap_collect_id_key ≠ hexEncode cfg2.dap_collect_id_key) := by
  obtain ⟨hb, hcid, -, -, -⟩ := translate_ok_fields task rng cfg h
  obtain ⟨hb2, hcid2, -, -, -⟩ := translate_ok_fields task rng2 cfg2 h2
  refine ⟨hb, hcid, ?_, ?_, ?_, ?_, by simp [daphneBindings], by simp [daphneBindings],
    ?_, ?_⟩
  · rw [hb, fillBytes_length]
  · rw [hcid, fillBytes_length]
  · rw [hb, hexEncode_length, fillBytes_length]
  · rw [hcid, hexEncode_length, fillBytes_length]
  · intro hne heq
    rw [hb, hb2] at heq
    exact hne (hexEncode_injOn _ _ (fillBytes_lt rng 0 16) (fillBytes_lt rng2 0 16) heq)
  · intro hne heq
    rw [hcid, hcid2] at heq
    exact hne (hexEncode_injOn _ _ (fillBytes_lt rng 16 16) (fillBytes_lt rng2 16 16) heq)

/-- Witness for C5: two translations of the same task under distinct RNG streams
have 16-byte keys, 32-character hex bindings, and distinct hex encodings. -/
theorem random_keys_hex_witness :
    ∃ cfg cfg2, translate exampleLeaderTask rngZero = Except.ok cfg ∧
      translate exampleLeaderTask rngNat = Except.ok cfg2 ∧
      cfg.dap_bucket_key.length = 16 ∧
      cfg.dap_collect_id_key.length = 16 ∧
      (hexEncode cfg.dap_bucket_key).length = 32 ∧
      (hexEncode cfg.dap_collect_id_key).length = 32 ∧
      hexEncode cfg.dap_bucket_key ≠ hexEncode cfg2.dap_bucket_key ∧
      hexEncode cfg.dap_collect_id_key ≠ hexEncode cfg2.dap_collect_id_key := by
  obtain ⟨cfg, hok, -, -, -⟩ :=
    translate_eq_ok exampleLeaderTask rngZero (by decide) (by decide) (by decide)
      (by decide) (by decide) (by decide) (fun _ => by decide)
  obtain ⟨cfg2, hok2, -, -, -⟩ :=
    translate_eq_ok exampleLeaderTask rngNat (by decide) (by decide) (by decide)
      (by decide) (by decide) (by decide) (fun _ => by decide)
  have H := random_keys_hex exampleLeaderTask rngZero rngNat cfg cfg2 hok hok2
  exact ⟨cfg, cfg2, hok, hok2, H.2.2.1, H.2.2.2.1, H.2.2.2.2.1, H.2.2.2.2.2.1,
    H.2.2.2.2.2.2.2.2.1 (by decide), H.2.2.2.2.2.2.2.2.2 (by decide)⟩

/-- C6 counterexample: a task all of whose HPKE keypairs use the supported triple
whose translation nevertheless fails (its VDAF selector is unsupported), refuting
"for every Task whose HPKE keypairs all use the supported algorithm triple,
translation succeeds". -/
theorem supported_keys_translate_can_fail :
    (∀ p ∈ exampleBadVdafTask.hpke_keys, supportedHpkeTriple p.1 = true) ∧
    translate exampleBadVdafTask rngZero =
      .error (.UnsupportedVdaf VdafInstance.Fake) ∧
    ∀ cfg, translate exampleBadVdafTask rngZero ≠ Except.ok cfg := by
  refine ⟨by decide, by rfl, fun cfg h => ?_⟩
  rw [show translate exampleBadVdafTask rngZero =
    .error (.UnsupportedVdaf VdafInstance.Fake) from rfl] at h
  exact Except.noConfusion h

/-- C6 (amended): for every Task whose HPKE keypairs all use the supported
algorithm triple and which also satisfies the remaining implicit preconditions of
`Daphne::new` (both aggregator endpoints, a supported VDAF selector, a VDAF verify
key, an aggregator auth token, and — for a Leader — a collector auth token, plus a
supported collector HPKE config), translation succeeds and the HPKE receiver list
contains exactly one entry per keypair of the task, each entry's id equalling the
corresponding keypair's config id and its public key being the hex encoding of
that keypair's public key bytes. -/
theorem receiver_list_entries (task : Task) (rng : Nat → Nat)
    (hkeys : ∀ p ∈ task.hpke_keys, supportedHpkeTriple p.1 = true)
    (hlen : 2 ≤ task.aggregator_endpoints.length)
    (hvdaf : vdafSupported task.vdaf = true)
    (hvk : task.vdaf_verify_keys ≠ [])
    (hcol : supportedHpkeTriple task.collector_hpke_config = true)
    (hat : task.aggregator_auth_tokens ≠ [])
    (hct : task.role = Role.Leader → task.collector_auth_tokens ≠ []) :
    ∃ cfg, translate task rng = .ok cfg ∧
      cfg.dap_hpke_receiver_config_list = task.hpke_keys.map (fun p =>
        { config := daphneHpkeConfigOf p.1, secret_key := hexEncode p.2 }) ∧
      cfg.dap_hpke_receiver_config_list.length = task.hpke_keys.length := by
  obtain ⟨cfg, hok, hmap, -, -⟩ :=
    translate_eq_ok task rng hkeys hlen hvdaf hvk hcol hat hct
  exact ⟨cfg, hok, hmap, by rw [hmap, List.length_map]⟩

/-- Witness for C6: the Leader task with exactly one supported keypair translates
to a receiver list with exactly one entry whose id is the input key id (7) and
whose public key is the hex encoding of the input public key. -/
theorem receiver_list_entries_witness :
    ∃ cfg, translate exampleLeaderTask rngZero = Except.ok cfg ∧
      cfg.dap_hpke_receiver_config_list =
        [{ config := daphneHpkeConfigOf supportedHpkeConfigEx,
           secret_key := hexEncode [10, 11] }] ∧
      cfg.dap_hpke_receiver_config_list.length = 1 ∧
      (daphneHpkeConfigOf supportedHpkeConfigEx).id = supportedHpkeConfigEx.id := by
  obtain ⟨cfg, hok, hmap, hl⟩ :=
    receiver_list_entries exampleLeaderTask rngZero (by decide) (by decide)
      (by decide) (by decide) (by decide) (by decide) (fun _ => by decide)
  exact ⟨cfg, hok, by rw [hmap]; rfl, by rw [hl]; rfl, rfl⟩

/-- C7: for every Task whose translation succeeds, exactly one aggregator bearer
token is forwarded to the container — the primary (first) token of the
rotation-ordered aggregator token list — keyed by the hex-encoded task id, even
when the Task carries several tokens for rotation. -/
theorem primary_aggregator_token_forwarded (task : Task) (rng : Nat → Nat)
    (cfg : TranslatedConfig) (h : translate task rng = .ok cfg) :
    ∃ t, task.primary_aggregator_auth_token = some t ∧
      task.aggregator_auth_tokens.head? = some t ∧
      cfg.aggregator_bearer_token_list = jsonSingletonObj (hexEncode task.id) t ∧
      ("DAP_LEADER_BEARER_TOKEN_LIST", jsonSingletonObj (hexEncode task.id) t) ∈
        daphneBindings cfg task.role := by
  obtain ⟨-, -, ⟨t, ht, he⟩, -, -⟩ := translate_ok_fields task rng cfg h
  exact ⟨t, ht, by simpa [Task.primary_aggregator_auth_token] using ht, he,
    by simp [daphneBindings, he.symm]⟩

/-- Witness for C7: the Leader task carries two rotation tokens, and the forwarded
aggregator token list is the single-entry object for the first token "tok-a". -/
theorem primary_aggregator_token_forwarded_witness :
    ∃ cfg, translate exampleLeaderTask rngZero = Except.ok cfg ∧
      cfg.aggregator_bearer_token_list =
        jsonSingletonObj (hexEncode exampleLeaderTask.id) "tok-a" ∧
      exampleLeaderTask.aggregator_auth_tokens.length = 2 := by
  obtain ⟨cfg, hok, -, -, -⟩ :=
    translate_eq_ok exampleLeaderTask rngZero (by decide) (by decide) (by decide)
      (by decide) (by decide) (by decide) (fun _ => by decide)
  obtain ⟨t, ht, -, he, -⟩ :=
    primary_aggregator_token_forwarded exampleLeaderTask rngZero cfg hok
  have ht' : t = "tok-a" := by
    simpa [exampleLeaderTask, Task.primary_aggregator_auth_token] using ht.symm
  exact ⟨cfg, hok, by rw [he, ht'], rfl⟩

/-- C8: the container image name and tag are resolved at most once per process —
under the cache lock, a first call with an empty cache parses the metadata and
populates the single-slot cache, every call with a populated cache returns the
cached pair unchanged regardless of the metadata (no re-parsing), and any caller
running after a successful initialization observes the initializer's value. -/
theorem image_cache_memoized :
    (∀ (metadata : DaphneImageMetadata) (loadedImageTag : String),
      resolveImageNameAndTag none metadata loadedImageTag =
        (parseImageNameAndTag metadata loadedImageTag).map (fun nt => (nt, some nt))) ∧
    (∀ (nt : String × String) (metadata : DaphneImageMetadata)
      (loadedImageTag : String),
      resolveImageNameAndTag (some nt) metadata loadedImageTag = .ok (nt, some nt)) ∧
    (∀ (metadata : DaphneImageMetadata) (loadedImageTag : String)
      (nt : String × String) (cache : Option (String × String))
      (metadata2 : DaphneImageMetadata) (loadedImageTag2 : String),
      resolveImageNameAndTag none metadata loadedImageTag = .ok (nt, cache) →
      resolveImageNameAndTag cache metadata2 loadedImageTag2 = .ok (nt, cache)) := by
  refine ⟨fun m t => ?_, fun nt m t => rfl, fun m t nt cache m2 t2 h => ?_⟩
  · simp only [resolveImageNameAndTag]
    cases parseImageNameAndTag m t <;> simp [Except.map]
  · simp only [resolveImageNameAndTag] at h
    rcases hp : parseImageNameAndTag m t with e | nt'
    · simp only [hp] at h
      exact Except.noConfusion h
    · simp only [hp] at h
      injection h with h
      obtain ⟨h1, h2⟩ := Prod.mk.injEq .. ▸ h
      subst h1
      subst h2
      rfl

/-- Witness for C8: a first call on the empty cache with prebuilt metadata, a call
on the populated cache, and the populated value observed by a later call with
different metadata arguments. -/
theorem image_cache_memoized_witness :
    resolveImageNameAndTag none examplePrebuiltMetadata "t" =
      (parseImageNameAndTag examplePrebuiltMetadata "t").map (fun nt => (nt, some nt)) ∧
    resolveImageNameAndTag (some ("daphne-img", "tag-1")) examplePrebuiltMetadata "t" =
      .ok (("daphne-img", "tag-1"), some ("daphne-img", "tag-1")) ∧
    resolveImageNameAndTag (some ("daphne-img", "tag-1"))
        { strategy := some "skip", image_name := none, image_tag := none } "t2" =
      .ok (("daphne-img", "tag-1"), some ("daphne-img", "tag-1")) :=
  ⟨image_cache_memoized.1 examplePrebuiltMetadata "t",
   image_cache_memoized.2.1 ("daphne-img", "tag-1") examplePrebuiltMetadata "t",
   image_cache_memoized.2.2 examplePrebuiltMetadata "t" ("daphne-img", "tag-1")
     (some ("daphne-img", "tag-1"))
     { strategy := some "skip", image_name := none, image_tag := none } "t2"
     (by rfl)⟩

/-- C9: the collector HPKE configuration is validated against the same single
supported algorithm triple as the receiver keypairs — for a Task all of whose HPKE
keypairs use the supported triple but whose collector HPKE config does not (and
which otherwise reaches the collector check), `Daphne::new` fails with
`UnsupportedHpkeAlgorithm` carrying the collector config's identifiers, with an
empty action trace, before any container is launched. -/
theorem collector_config_checked_before_launch (task : Task)
    (hkeys : ∀ p ∈ task.hpke_keys, supportedHpkeTriple p.1 = true)
    (hlen : 2 ≤ task.aggregator_endpoints.length)
    (hvdaf : vdafSupported task.vdaf = true)
    (hvk : task.vdaf_verify_keys ≠ [])
    (hcol : supportedHpkeTriple task.collector_hpke_config = false) :
    ∀ (rng : Nat → Nat) (cache : Option (String × String))
      (metadata : DaphneImageMetadata) (loadedImageTag : String),
      daphneNewTrace task rng cache metadata loadedImageTag =
        (.error (.UnsupportedHpkeAlgorithm task.collector_hpke_config.kem_id
          task.collector_hpke_config.kdf_id task.collector_hpke_config.aead_id),
         []) := by
  intro rng cache metadata tag
  have hrl := dapHpkeReceiverConfigList_ok task.hpke_keys hkeys
  obtain ⟨lu, hurlL⟩ := aggregator_url_leader task hlen
  obtain ⟨hu, hurlH⟩ := aggregator_url_helper task hlen
  obtain ⟨d, hd⟩ := vdaf_config_ok task.vdaf hvdaf
  obtain ⟨vk, hvkh⟩ := head?_of_ne_nil hvk
  have hcolc := fromHpkeConfig_err task.collector_hpke_config hcol
  have htr : translate task rng =
      .error (.UnsupportedHpkeAlgorithm task.collector_hpke_config.kem_id
        task.collector_hpke_config.kdf_id task.collector_hpke_config.aead_id) := by
    simp only [translate, hrl, hurlL, hurlH, hd, hvkh, hcolc]
  simp [daphneNewTrace, htr]

/-- Witness for C9: the task whose receiver keypair is supported but whose
collector config uses P-256 fails on the collector check with no actions. -/
theorem collector_config_checked_before_launch_witness :
    daphneNewTrace exampleBadCollectorTask rngZero none examplePrebuiltMetadata "t" =
      (.error (.UnsupportedHpkeAlgorithm HpkeKemId.P256HkdfSha256
        HpkeKdfId.HkdfSha256 HpkeAeadId.Aes128Gcm), []) :=
  collector_config_checked_before_launch exampleBadCollectorTask (by decide)
    (by decide) (by decide) (by decide) (by decide) rngZero none
    examplePrebuiltMetadata "t"

/-- C10: instance creation has unstated preconditions on the Task — endpoint URLs
for both the Leader and the Helper role and at least one VDAF verification key;
under these preconditions the corresponding lookups always succeed (including the
role-endpoint lookup when the task's role is an aggregator role, as the spec's
data model guarantees), and for a Task violating them creation aborts with the
corresponding panic instead of returning a typed error. -/
theorem new_preconditions :
    (∀ task : Task, 2 ≤ task.aggregator_endpoints.length →
      task.vdaf_verify_keys ≠ [] →
      (∃ u, task.aggregator_url Role.Leader = some u) ∧
      (∃ u, task.aggregator_url Role.Helper = some u) ∧
      (∃ k, task.vdaf_verify_keys.head? = some k) ∧
      ((task.role = Role.Leader ∨ task.role = Role.Helper) →
        ∃ u, task.aggregator_url task.role = some u)) ∧
    translate exampleNoEndpointTask rngZero =
      .error DaphneError.panicMissingLeaderUrl := by
  constructor
  · intro task hlen hvk
    refine ⟨aggregator_url_leader task hlen,
      aggregator_url_helper task hlen, head?_of_ne_nil hvk, ?_⟩
    rintro (hr | hr) <;> rw [hr]
    · exact aggregator_url_leader task hlen
    · exact aggregator_url_helper task hlen
  · rfl

/-- Witness for C10: the well-formed Leader task satisfies the preconditions and
all three lookups succeed on it; the endpoint-free task aborts with the
leader-URL panic. -/
theorem new_preconditions_witness :
    ((∃ u, exampleLeaderTask.aggregator_url Role.Leader = some u) ∧
     (∃ u, exampleLeaderTask.aggregator_url Role.Helper = some u) ∧
     (∃ k, exampleLeaderTask.vdaf_verify_keys.head? = some k) ∧
     ((exampleLeaderTask.role = Role.Leader ∨ exampleLeaderTask.role = Role.Helper) →
       ∃ u, exampleLeaderTask.aggregator_url exampleLeaderTask.role = some u)) ∧
    translate exampleNoEndpointTask rngZero =
      .error DaphneError.panicMissingLeaderUrl :=
  ⟨new_preconditions.1 exampleLeaderTask (by decide) (by decide),
   new_preconditions.2⟩

end Daphne
